import Mathlib

set_option linter.unusedVariables false

/-!
Verification of the flush-manager supervisor: a shallow embedding of its
change detector (watcher package), process supervisor (process package)
and orchestrator (manager package), with theorems about their behavior.
-/

namespace FlushManager

/-! ## Change detector: stat comparison (watcher.checkFileChanged) -/

/-- Result of a successful os.Stat on the watched path: the modification
time (modelled as an integer timestamp) and the inode number (uint64 in
the source; zero when the platform identity is unavailable). -/
structure StatInfo where
  modTime : Int
  inode   : Nat
deriving DecidableEq, Repr

/-- The recorded baseline held by the fileWatcher struct: the fields
lastModTime and lastInode. -/
structure WatcherBaseline where
  lastModTime : Int
  lastInode   : Nat
deriving DecidableEq, Repr

/-- Embedding of fileWatcher.checkFileChanged. The input is the outcome
of os.Stat on the watched path (none models a stat error, in which case
the source logs and returns false without touching the baseline).
Returns the reported decision together with the updated baseline. -/
def checkFileChanged (fw : WatcherBaseline) (stat : Option StatInfo) :
    Bool × WatcherBaseline :=
  match stat with
  | none => (false, fw)
  | some s =>
    if fw.lastModTime < s.modTime ∨ (s.inode ≠ 0 ∧ s.inode ≠ fw.lastInode) then
      (true, { lastModTime := s.modTime, lastInode := s.inode })
    else
      (false, fw)

end FlushManager

namespace FlushManager

/-- Claim C1: for every stat result observed by checkFileChanged, a change
is reported iff the new modification time is strictly later than the last
recorded one or the new inode is nonzero and differs from the last
recorded one; when a change is reported both baseline fields are updated
to the observed values, otherwise the baseline is left unchanged; in
particular an identity change with a non-advancing timestamp is still
reported. -/
theorem C1_checkFileChanged_semantics (fw : WatcherBaseline) (s : StatInfo) :
    ((checkFileChanged fw (some s)).1 = true ↔
      (fw.lastModTime < s.modTime ∨ (s.inode ≠ 0 ∧ s.inode ≠ fw.lastInode)))
    ∧ ((checkFileChanged fw (some s)).1 = true →
        (checkFileChanged fw (some s)).2 = ⟨s.modTime, s.inode⟩)
    ∧ ((checkFileChanged fw (some s)).1 = false →
        (checkFileChanged fw (some s)).2 = fw)
    ∧ (s.modTime ≤ fw.lastModTime → s.inode ≠ 0 → s.inode ≠ fw.lastInode →
        (checkFileChanged fw (some s)).1 = true) := by
  unfold checkFileChanged
  by_cases h : fw.lastModTime < s.modTime ∨ (s.inode ≠ 0 ∧ s.inode ≠ fw.lastInode)
  · simp [h]
  · simp [h]
    push_neg at h
    intro hle hne
    exact (h.2 hne)

/-- Witness for C1: a symlink swap that changes the inode from 10 to 11
while the timestamp stays at 5 is reported as a change. -/
theorem C1_checkFileChanged_semantics_witness :
    (checkFileChanged ⟨5, 10⟩ (some ⟨5, 11⟩)).1 = true :=
  (C1_checkFileChanged_semantics ⟨5, 10⟩ ⟨5, 11⟩).2.2.2
    (by decide) (by decide) (by decide)

end FlushManager

namespace FlushManager

/-! ## Process supervisor (process package) -/

/-- ExitReason from the process package. -/
inductive ExitReason where
  | Unknown
  | Abnormal
  | Restart
deriving DecidableEq, Repr

/-- The exitInfo value sent on the exit channel: the classified reason
and the error returned by cmd.Wait (none models a nil error, a clean
exit). -/
structure ExitInfo where
  reason : ExitReason
  err    : Option String
deriving DecidableEq, Repr

/-- The mutable state of the process manager struct that the lifecycle
operations read and write: the process handle (modelled by the pid, none
when cmd or cmd.Process is nil) and the restart flag. -/
structure ProcState where
  cmd         : Option Nat
  restartFlag : Bool
deriving DecidableEq, Repr

/-- Embedding of manager.monitorProcess: upon cmd.Wait returning, the
reason is Restart when the restart flag is set at that moment and
Abnormal otherwise, the wait error is carried alongside, and the state
of the manager struct is returned as the routine leaves it. -/
def monitorProcess (s : ProcState) (waitErr : Option String) :
    ProcState × ExitInfo :=
  (s, { reason := if s.restartFlag then .Restart else .Abnormal
        err    := waitErr })

/-- The exact error text the source compares against when a signal fails
because the process already exited. -/
def alreadyFinishedMsg : String := "os: process already finished"

/-- The target of a signal sent by the supervisor. Go Process.Signal and
Process.Kill address the single process identified by the pid; signalling
the whole process group would address the negated group id. -/
inductive SigTarget where
  | process (pid : Nat)
  | group (pgid : Nat)
deriving DecidableEq, Repr

/-- Observable signal-delivery actions performed by Stop. -/
inductive StopAction where
  | sigterm (t : SigTarget)
  | sigkill (t : SigTarget)
deriving DecidableEq, Repr

/-- Environment for one call to Stop: the outcome of Process.Signal
(none = delivered), whether the process exits before the timeout elapses
(which side of the select wins), and the outcome of Process.Kill. -/
structure StopEnv where
  sigtermResult       : Option String
  exitedWithinTimeout : Bool
  killResult          : Option String
deriving DecidableEq, Repr

/-- Embedding of manager.Stop: no-op success when no process handle is
live; otherwise send SIGTERM to the process (Process.Signal), treat the
already-finished delivery failure as success and surface any other
delivery error; then race the wait against the timeout, sending SIGKILL
(Process.Kill) and returning its result on timeout. Returns the error
result together with the list of signal actions performed. -/
def Stop (s : ProcState) (env : StopEnv) : Option String × List StopAction :=
  match s.cmd with
  | none => (none, [])
  | some pid =>
    match env.sigtermResult with
    | some e =>
      if e ≠ alreadyFinishedMsg then
        (some e, [.sigterm (.process pid)])
      else
        (none, [.sigterm (.process pid)])
    | none =>
      if env.exitedWithinTimeout then
        (none, [.sigterm (.process pid)])
      else
        (env.killResult, [.sigterm (.process pid), .sigkill (.process pid)])

/-- Error wrapping applied by Restart to a Stop failure
(fmt.Errorf with the failed-to-stop prefix). -/
def wrapStopErr (e : String) : String := "failed to stop process: " ++ e

/-- Observable steps performed by Restart, in order. -/
inductive RestartAction where
  | setRestartFlag (b : Bool)
  | callStop (timeoutSeconds : Nat)
  | sleepMilliseconds (ms : Nat)
  | callStart
deriving DecidableEq, Repr

/-- Embedding of manager.Restart: set the restart flag, call Stop with a
10 second grace period (returning the wrapped Stop error immediately on
failure), sleep 100 ms, clear the restart flag, call Start and return its
result. The sub-call outcomes are supplied as oracles. -/
def Restart (stopResult startResult : Option String) :
    Option String × List RestartAction :=
  match stopResult with
  | some e =>
    (some (wrapStopErr e), [.setRestartFlag true, .callStop 10])
  | none =>
    (startResult,
      [.setRestartFlag true, .callStop 10, .sleepMilliseconds 100,
       .setRestartFlag false, .callStart])

/-! ## Orchestrator (manager package) -/

/-- One outcome of an iteration of the Run event loop: either the loop
continues or Run returns with the given error result. -/
inductive LoopStep where
  | continueLoop
  | exitRun (result : Option String)
deriving DecidableEq, Repr

/-- Embedding of Manager.shutdown: cancels the scope, closes the file
watcher logging but never returning its error, then calls Stop on the
process manager with a 10 second timeout and returns only the Stop
result. -/
def shutdown (closeResult stopResult : Option String) : Option String :=
  stopResult

/-- Embedding of the exit-result branch of the Run event loop: an exit
result with reason Restart is discarded and the loop continues; any
other reason makes Run return the shutdown result, the exit error being
only logged. -/
def handleExitResult (closeResult stopResult : Option String)
    (r : ExitInfo) : LoopStep :=
  if r.reason = .Restart then .continueLoop
  else .exitRun (shutdown closeResult stopResult)

end FlushManager

namespace FlushManager

/-- Claim C3: for every process run, the wait routine produces exactly
one ExitInfo whose reason is Restart exactly when the restart flag is set
at the moment of termination and Abnormal otherwise, never Unknown,
regardless of whether the underlying exit error is nil, with that error
carried alongside. -/
theorem C3_monitorProcess_classification (s : ProcState)
    (waitErr : Option String) :
    ((monitorProcess s waitErr).2.reason = .Restart ↔ s.restartFlag = true)
    ∧ ((monitorProcess s waitErr).2.reason = .Abnormal ↔ s.restartFlag = false)
    ∧ (monitorProcess s waitErr).2.reason ≠ .Unknown
    ∧ (monitorProcess s waitErr).2.err = waitErr := by
  unfold monitorProcess
  cases h : s.restartFlag <;> simp [h]

/-- Witness for C3: with the restart flag set at termination, the exit
of pid 3 is classified as Restart even though the exit was clean. -/
theorem C3_monitorProcess_classification_witness :
    (monitorProcess ⟨some 3, true⟩ none).2.reason = .Restart :=
  (C3_monitorProcess_classification ⟨some 3, true⟩ none).1.mpr rfl

/-- Claim C5: Restart sets the restart flag, calls Stop with a 10 second
grace period, pauses 100 ms, clears the flag and calls Start, in that
order; it returns the first error encountered, returning immediately on a
Stop failure without performing the subsequent Start. -/
theorem C5_restart_behavior (stopResult startResult : Option String) :
    (∀ e, stopResult = some e →
      Restart stopResult startResult =
        (some (wrapStopErr e), [.setRestartFlag true, .callStop 10]))
    ∧ (stopResult = none →
      Restart stopResult startResult =
        (startResult,
          [.setRestartFlag true, .callStop 10, .sleepMilliseconds 100,
           .setRestartFlag false, .callStart])) := by
  constructor
  · intro e he; subst he; rfl
  · intro h; subst h; rfl

/-- Witness for C5: a Stop failure is wrapped and returned with Start
never performed. -/
theorem C5_restart_behavior_witness :
    Restart (some "boom") none =
      (some (wrapStopErr "boom"), [.setRestartFlag true, .callStop 10]) :=
  (C5_restart_behavior (some "boom") none).1 "boom" rfl

/-- Counterexample to claim C4 as stated: with a live process (pid 5) and
clean SIGTERM delivery, the only signal action Stop performs is addressed
to the single process, and no action addressed to the process group is
ever performed. -/
theorem C4_counterexample :
    (Stop ⟨some 5, false⟩ ⟨none, true, none⟩).2
      = [.sigterm (.process 5)]
    ∧ StopAction.sigterm (.group 5) ∉
        (Stop ⟨some 5, false⟩ ⟨none, true, none⟩).2 := by
  decide

/-- Claim C4, amended: Stop is a successful no-op when no process is
live; otherwise it sends SIGTERM to the child process (not its group),
treats the already-finished delivery failure as success, surfaces any
other delivery error, and on timeout sends SIGKILL to the process and
returns that result; an error is returned only from a non-benign
delivery failure or from the forceful kill. -/
theorem C4_stop_behavior (s : ProcState) (env : StopEnv) :
    (s.cmd = none → Stop s env = (none, []))
    ∧ (∀ pid, s.cmd = some pid →
        (env.sigtermResult = none → env.exitedWithinTimeout = true →
          Stop s env = (none, [.sigterm (.process pid)]))
        ∧ (env.sigtermResult = none → env.exitedWithinTimeout = false →
          Stop s env =
            (env.killResult,
             [.sigterm (.process pid), .sigkill (.process pid)]))
        ∧ (env.sigtermResult = some alreadyFinishedMsg →
          Stop s env = (none, [.sigterm (.process pid)]))
        ∧ (∀ e, env.sigtermResult = some e → e ≠ alreadyFinishedMsg →
          Stop s env = (some e, [.sigterm (.process pid)])))
    ∧ (∀ e, (Stop s env).1 = some e →
        (env.sigtermResult = some e ∧ e ≠ alreadyFinishedMsg)
        ∨ (env.sigtermResult = none ∧ env.exitedWithinTimeout = false
            ∧ env.killResult = some e)) := by
  unfold Stop
  refine ⟨?_, ?_, ?_⟩
  · intro h; rw [h]
  · intro pid hpid
    rw [hpid]
    refine ⟨?_, ?_, ?_, ?_⟩
    · intro hsig hex; rw [hsig, hex]; rfl
    · intro hsig hex; rw [hsig, hex]; rfl
    · intro hsig; rw [hsig]; simp
    · intro e hsig hne; rw [hsig]; simp [hne]
  · intro e h
    cases hcmd : s.cmd with
    | none => simp [hcmd] at h
    | some pid =>
      cases hsig : env.sigtermResult with
      | none =>
        cases hex : env.exitedWithinTimeout with
        | true => simp [hcmd, hsig, hex] at h
        | false =>
          simp [hcmd, hsig, hex] at h
          exact Or.inr ⟨rfl, rfl, h⟩
      | some e₀ =>
        by_cases hne : e₀ = alreadyFinishedMsg
        · simp [hcmd, hsig, hne] at h
        · simp [hcmd, hsig, hne] at h
          subst h
          exact Or.inl ⟨rfl, hne⟩

/-- Witness for C4 (amended): Stop on a supervisor with no live process
handle is a successful no-op. -/
theorem C4_stop_behavior_witness :
    Stop ⟨none, false⟩ ⟨none, true, none⟩ = (none, []) :=
  (C4_stop_behavior ⟨none, false⟩ ⟨none, true, none⟩).1 rfl

/-- Counterexample to claim C6 as stated: after the wait routine observes
termination of pid 7, the process handle is still set, so a subsequent
Stop signals the dead process and succeeds through the benign
already-finished path rather than through the no-process no-op path. -/
theorem C6_counterexample :
    (monitorProcess ⟨some 7, false⟩ none).1.cmd = some 7
    ∧ (some 7 : Option Nat) ≠ none
    ∧ Stop (monitorProcess ⟨some 7, false⟩ none).1
        ⟨some alreadyFinishedMsg, true, none⟩
        = (none, [.sigterm (.process 7)]) := by
  decide

/-- Claim C6, amended: the background wait routine emits the ExitInfo but
leaves the supervisor state, in particular the process handle, unchanged;
after any termination a subsequent Stop still sees the handle and returns
success through the benign already-finished signal path, not the
no-process no-op path. -/
theorem C6_monitor_keeps_handle (s : ProcState) (waitErr : Option String) :
    (monitorProcess s waitErr).1 = s
    ∧ (∀ pid, s.cmd = some pid →
        Stop (monitorProcess s waitErr).1
          ⟨some alreadyFinishedMsg, true, none⟩
          = (none, [.sigterm (.process pid)])) := by
  refine ⟨rfl, ?_⟩
  intro pid hpid
  unfold monitorProcess Stop
  rw [hpid]
  simp

/-- Witness for C6 (amended): concrete run at pid 7. -/
theorem C6_monitor_keeps_handle_witness :
    Stop (monitorProcess ⟨some 7, false⟩ none).1
      ⟨some alreadyFinishedMsg, true, none⟩
      = (none, [.sigterm (.process 7)]) :=
  (C6_monitor_keeps_handle ⟨some 7, false⟩ none).2 7 rfl

/-- Counterexample to claim C2 as stated: when the child exits abnormally
with a non-nil error and shutdown itself succeeds, Run returns nil rather
than propagating the exit error. -/
theorem C2_counterexample :
    handleExitResult none none ⟨.Abnormal, some "exit status 1"⟩
      = .exitRun none
    ∧ LoopStep.exitRun (none : Option String)
        ≠ .exitRun (some "exit status 1") := by
  decide

/-- Claim C2, amended: an exit result with reason Restart is discarded
and the event loop continues; for any other reason the orchestrator shuts
down and Run returns the shutdown result (the Stop error, if any); the
underlying exit error is logged, never propagated to the caller of
Run. -/
theorem C2_exit_branch (closeResult stopResult : Option String)
    (r : ExitInfo) :
    (r.reason = .Restart →
      handleExitResult closeResult stopResult r = .continueLoop)
    ∧ (r.reason ≠ .Restart →
      handleExitResult closeResult stopResult r = .exitRun stopResult) := by
  unfold handleExitResult shutdown
  constructor
  · intro h; simp [h]
  · intro h; simp [h]

/-- Witness for C2 (amended): a Restart-reason exit is discarded. -/
theorem C2_exit_branch_witness :
    handleExitResult none none ⟨.Restart, none⟩ = .continueLoop :=
  (C2_exit_branch none none ⟨.Restart, none⟩).1 rfl

end FlushManager

namespace FlushManager

/-! ## Change detector: construction and the event loop (watcher package) -/

/-- Outcome of os.Lstat on the configured path at construction time. -/
inductive LstatOutcome where
  | notExist
  | statErr (e : String)
  | info (isSymlink : Bool)
deriving DecidableEq, Repr

/-- The fileWatcher struct built at construction: the watched path, the
recorded baseline, the fixed debounce (500 ms) and poll interval (5 s),
the symlink flag and the resolved real path. -/
structure ActiveWatcherState where
  filePath        : String
  baseline        : WatcherBaseline
  debounceMs      : Nat
  pollIntervalSec : Nat
  isSymlink       : Bool
  realPath        : String
deriving DecidableEq, Repr

/-- A constructed FileWatcher value: either the no-op implementation or
an active fileWatcher. -/
inductive Watcher where
  | noop
  | active (st : ActiveWatcherState)
deriving DecidableEq, Repr

/-- Environment for one call to NewFileWatcher: outcomes of the system
calls it performs, in source order. -/
structure NewWatcherEnv where
  lstat        : LstatOutcome
  evalSymlinks : Except String String
  newFsnotify  : Except String Unit
  addDir       : Except String Unit
  addConfigDir : Except String Unit
  initialStat  : Option StatInfo
deriving Repr

/-- Embedding of watcher.NewFileWatcher: an empty path or a nonexistent
path yields the no-op watcher with a nil error; a stat error, a symlink
resolution error, an fsnotify creation error or a parent-directory watch
error fail construction; a failure to watch the ConfigMap grandparent
directory is only logged; on success the initial baseline is snapshotted
from os.Stat (zero values when that stat fails). -/
def NewFileWatcher (filePath : String) (env : NewWatcherEnv) :
    Except String Watcher :=
  if filePath = "" then .ok .noop
  else
    match env.lstat with
    | .notExist => .ok .noop
    | .statErr e => .error ("failed to stat file " ++ filePath ++ ": " ++ e)
    | .info isSym =>
      let realPathE : Except String String :=
        if isSym then env.evalSymlinks else .ok filePath
      match realPathE with
      | .error e =>
        .error ("failed to resolve symlink " ++ filePath ++ ": " ++ e)
      | .ok realPath =>
        match env.newFsnotify with
        | .error e => .error ("failed to create fsnotify watcher: " ++ e)
        | .ok _ =>
          match env.addDir with
          | .error e => .error ("failed to watch directory: " ++ e)
          | .ok _ =>
            let baseline : WatcherBaseline :=
              match env.initialStat with
              | some s => ⟨s.modTime, s.inode⟩
              | none => ⟨0, 0⟩
            .ok (.active ⟨filePath, baseline, 500, 5, isSym, realPath⟩)

/-- The background activities spawned by fileWatcher.Start: the fsnotify
event loop and the polling loop. The no-op watcher spawns none. -/
inductive BgActivity where
  | fsnotifyLoop
  | pollLoop
deriving DecidableEq, Repr

/-- Embedding of Start on both FileWatcher implementations: the returned
error and the background activities launched. -/
def watcherStart (w : Watcher) : Option String × List BgActivity :=
  match w with
  | .noop => (none, [])
  | .active _ => (none, [.fsnotifyLoop, .pollLoop])

/-- Embedding of Changes: the no-op watcher returns the nil channel
(modelled as none), from which no notification can ever be received; the
active watcher returns its change channel. -/
def watcherChanges (w : Watcher) : Option Unit :=
  match w with
  | .noop => none
  | .active _ => some ()

/-- Embedding of Close: the no-op watcher returns a nil error; the
active watcher returns the result of closing its fsnotify watcher. -/
def watcherClose (w : Watcher) (fsnotifyCloseResult : Option String) :
    Option String :=
  match w with
  | .noop => none
  | .active _ => fsnotifyCloseResult

end FlushManager

namespace FlushManager

/-- Claim C7: for every watch path that does not exist at construction
time, NewFileWatcher succeeds with the no-op watcher, whose Start
succeeds launching no background activity, whose notification stream is
the nil channel that never emits, and whose Close returns success. -/
theorem C7_nonexistent_path_noop (filePath : String) (env : NewWatcherEnv)
    (h : env.lstat = .notExist) :
    NewFileWatcher filePath env = .ok .noop
    ∧ watcherStart .noop = (none, [])
    ∧ watcherChanges .noop = none
    ∧ (∀ r, watcherClose .noop r = none) := by
  refine ⟨?_, rfl, rfl, fun r => rfl⟩
  unfold NewFileWatcher
  by_cases hp : filePath = "" <;> simp [hp, h]

/-- Witness for C7: construction against a missing path. -/
theorem C7_nonexistent_path_noop_witness :
    NewFileWatcher "/etc/app/missing.conf"
      ⟨.notExist, .ok "", .ok (), .ok (), .ok (), none⟩ = .ok .noop :=
  (C7_nonexistent_path_noop "/etc/app/missing.conf"
    ⟨.notExist, .ok "", .ok (), .ok (), .ok (), none⟩ rfl).1

end FlushManager

namespace FlushManager

/-! ## Change detector: the coalescing notification channel

The change channel is created with capacity 1, and both code sites that
push into it - the debounce-timer callback in the fsnotify loop and the
poll tick - use the same non-blocking select with a default branch, so a
push onto a full channel is dropped. The channel occupancy is modelled
as the number of unconsumed notifications. -/

/-- The non-blocking send with default branch used by both push sites on
the capacity-1 change channel: returns the new occupancy and whether the
notification was actually sent (false = dropped). -/
def trySend (pending : Nat) : Nat × Bool :=
  if pending < 1 then (pending + 1, true) else (pending, false)

/-- One interaction with the change channel: a push from either producer
or a receive by the consumer. -/
inductive ChanOp where
  | push
  | consume
deriving DecidableEq, Repr

/-- Effect of one channel interaction on the occupancy. -/
def chanStep (n : Nat) : ChanOp → Nat
  | .push => (trySend n).1
  | .consume => n - 1

/-- Occupancy of the change channel after a sequence of interactions,
starting from the empty channel created at construction. -/
def chanRun (ops : List ChanOp) : Nat := ops.foldl chanStep 0

theorem chanStep_le_one (n : Nat) (op : ChanOp) (h : n ≤ 1) :
    chanStep n op ≤ 1 := by
  cases op with
  | push =>
    unfold chanStep trySend
    by_cases h1 : n < 1 <;> simp [h1] <;> omega
  | consume =>
    exact le_trans (Nat.sub_le n 1) h

theorem chanRun_aux (ops : List ChanOp) (n : Nat) (h : n ≤ 1) :
    ops.foldl chanStep n ≤ 1 := by
  induction ops generalizing n with
  | nil => exact h
  | cons op ops ih => exact ih _ (chanStep_le_one n op h)

/-- Claim C8: the change channel holds at most one unconsumed
notification after every sequence of pushes and receives; a push onto an
empty channel stores the notification, and a push while one is already
pending is dropped rather than queued, without blocking. -/
theorem C8_channel_at_most_one :
    (∀ ops : List ChanOp, chanRun ops ≤ 1)
    ∧ trySend 0 = (1, true)
    ∧ trySend 1 = (1, false) :=
  ⟨fun ops => chanRun_aux ops 0 (by omega), rfl, rfl⟩

end FlushManager

namespace FlushManager

/-! ## Change detector: fsnotify event filtering (fileWatcher.watch) -/

/-- Go filepath.Base: the last element of the path after trailing
slashes are removed; "." for the empty path; "/" for an all-slash
path. -/
def filepathBase (path : String) : String :=
  if path = "" then "."
  else
    let trimmed := (path.toList.reverse.dropWhile (fun c => c = '/')).reverse
    if trimmed = [] then "/"
    else String.mk ((trimmed.reverse.takeWhile (fun c => c ≠ '/')).reverse)

/-- An fsnotify event: the named path and whether each of the operation
bits the watch loop tests for is set. -/
structure FsEvent where
  name     : String
  isWrite  : Bool
  isCreate : Bool
  isRemove : Bool
deriving DecidableEq, Repr

/-- The relevance filter of the watch loop: the event names the target
path itself, or the target is a symlink and the base name of the event
path is one of the ConfigMap metadata names tested by the source. -/
def shouldCheck (st : ActiveWatcherState) (ev : FsEvent) : Bool :=
  if ev.name = st.filePath then true
  else if st.isSymlink then
    let b := filepathBase ev.name
    b == "..data" || b == "..data_tmp" || b == "data"
  else false

/-- The operation-kind filter of the watch loop: write, create or
remove. -/
def relevantOp (ev : FsEvent) : Bool :=
  ev.isWrite || ev.isCreate || ev.isRemove

/-- Result of processing one fsnotify event: either the event is dropped
(irrelevant path, irrelevant op, or the verification stat reports no
change) or a change is confirmed with the updated baseline, which resets
the debounce timer. -/
inductive WatchEventResult where
  | ignored
  | confirmedChange (newBaseline : WatcherBaseline)
deriving DecidableEq, Repr

/-- Embedding of one iteration of fileWatcher.watch on an incoming
event: filter by relevance, then by operation kind, then verify through
checkFileChanged on a fresh stat of the target path. -/
def handleWatchEvent (st : ActiveWatcherState) (ev : FsEvent)
    (stat : Option StatInfo) : WatchEventResult :=
  if shouldCheck st ev = true then
    if relevantOp ev = true then
      let r := checkFileChanged st.baseline stat
      if r.1 = true then .confirmedChange r.2 else .ignored
    else .ignored
  else .ignored

theorem shouldCheck_iff (st : ActiveWatcherState) (ev : FsEvent) :
    shouldCheck st ev = true ↔
      ev.name = st.filePath
      ∨ (st.isSymlink = true
          ∧ (filepathBase ev.name = "..data"
             ∨ filepathBase ev.name = "..data_tmp"
             ∨ filepathBase ev.name = "data")) := by
  unfold shouldCheck
  by_cases hn : ev.name = st.filePath
  · simp [hn]
  · cases hs : st.isSymlink <;> simp [hn, hs, or_assoc]

/-- Counterexample to claim C9 as stated: with a symlink target, an
event on an entry whose base name is "data" - which is neither the
target path nor one of the two intermediate-link conventions "..data"
and "..data_tmp" - still makes the detector proceed and confirm a
change. -/
theorem C9_counterexample :
    handleWatchEvent
      ⟨"/etc/cfg/app.conf", ⟨0, 1⟩, 500, 5, true, "/etc/cfg/d1/app.conf"⟩
      ⟨"/etc/cfg/data", true, false, false⟩
      (some ⟨0, 2⟩)
      = .confirmedChange ⟨0, 2⟩
    ∧ ("/etc/cfg/data" : String) ≠ "/etc/cfg/app.conf"
    ∧ filepathBase "/etc/cfg/data" ≠ "..data"
    ∧ filepathBase "/etc/cfg/data" ≠ "..data_tmp" := by
  refine ⟨?_, ?_, ?_, ?_⟩ <;> decide

/-- Claim C9, amended: the detector proceeds only if the event names the
target path itself or, when the target is a symlink, an entry whose base
name is one of the three names "..data", "..data_tmp" or "data"; only
for events of kind write, create or remove; and a change is confirmed
solely by re-statting the target and comparing modification time and
identity against the baseline, never on the raw event alone - in
particular a stat showing no change, or a stat error, confirms
nothing. -/
theorem C9_watch_filtering (st : ActiveWatcherState) (ev : FsEvent)
    (stat : Option StatInfo) :
    (∀ b, handleWatchEvent st ev stat = .confirmedChange b →
      (ev.name = st.filePath
        ∨ (st.isSymlink = true
            ∧ (filepathBase ev.name = "..data"
               ∨ filepathBase ev.name = "..data_tmp"
               ∨ filepathBase ev.name = "data")))
      ∧ (ev.isWrite = true ∨ ev.isCreate = true ∨ ev.isRemove = true)
      ∧ checkFileChanged st.baseline stat = (true, b))
    ∧ ((checkFileChanged st.baseline stat).1 = false →
        handleWatchEvent st ev stat = .ignored)
    ∧ (stat = none → handleWatchEvent st ev stat = .ignored) := by
  refine ⟨?_, ?_, ?_⟩
  · intro b h
    unfold handleWatchEvent at h
    by_cases h1 : shouldCheck st ev = true
    · by_cases h2 : relevantOp ev = true
      · simp [h1, h2] at h
        by_cases h3 : (checkFileChanged st.baseline stat).1 = true
        · simp [h3] at h
          refine ⟨(shouldCheck_iff st ev).mp h1, ?_, ?_⟩
          · have := h2
            unfold relevantOp at this
            simpa [Bool.or_eq_true, or_assoc] using this
          · rw [Prod.ext_iff]
            exact ⟨h3, h⟩
        · simp [h3] at h
      · simp [h1, h2] at h
    · simp [h1] at h
  · intro h
    unfold handleWatchEvent
    by_cases h1 : shouldCheck st ev = true <;>
      by_cases h2 : relevantOp ev = true <;>
      simp [h1, h2, h]
  · intro h
    subst h
    unfold handleWatchEvent checkFileChanged
    by_cases h1 : shouldCheck st ev = true <;>
      by_cases h2 : relevantOp ev = true <;>
      simp [h1, h2]

/-- Witness for C9 (amended): a write event on the exact target path with
a stat reporting no change is ignored. -/
theorem C9_watch_filtering_witness :
    handleWatchEvent
      ⟨"/etc/cfg/app.conf", ⟨0, 1⟩, 500, 5, false, "/etc/cfg/app.conf"⟩
      ⟨"/etc/cfg/app.conf", true, false, false⟩
      (some ⟨0, 1⟩)
      = .ignored :=
  (C9_watch_filtering
    ⟨"/etc/cfg/app.conf", ⟨0, 1⟩, 500, 5, false, "/etc/cfg/app.conf"⟩
    ⟨"/etc/cfg/app.conf", true, false, false⟩
    (some ⟨0, 1⟩)).2.1 (by decide)

end FlushManager

namespace FlushManager

/-! ## Orchestrator construction (manager.New) -/

/-- The Config passed to manager.New. -/
structure ManagerConfig where
  command        : String
  args           : List String
  configFilePath : String
deriving DecidableEq, Repr

/-- The Manager value built by a successful manager.New: the stored
configuration and the constructed file watcher. The process manager
struct is also built, which launches nothing. -/
structure ManagerModel where
  config      : ManagerConfig
  fileWatcher : Watcher
deriving DecidableEq, Repr

/-- Observable setup effects of manager.New. Launching the child process
is not among the actions New can emit: only Run starts the process. -/
inductive SetupAction where
  | createFileWatcher (path : String)
  | startProcess (command : String)
deriving DecidableEq, Repr

/-- Embedding of manager.New: an empty command fails before any watcher
setup; otherwise the file watcher is constructed (its outcome supplied
as an oracle) and a watcher construction failure fails New; on success
the Manager value is returned. New never launches the child process. -/
def New (cfg : ManagerConfig) (watcherResult : Except String Watcher) :
    Except String ManagerModel × List SetupAction :=
  if cfg.command = "" then
    (.error "command cannot be empty", [])
  else
    match watcherResult with
    | .error e =>
      (.error ("failed to create file watcher: " ++ e),
       [.createFileWatcher cfg.configFilePath])
    | .ok w =>
      (.ok ⟨cfg, w⟩, [.createFileWatcher cfg.configFilePath])

end FlushManager

namespace FlushManager

/-- Claim C10: for every configuration whose command is the empty string,
New returns an error and no Manager, performing no watcher setup and no
process launch. -/
theorem C10_new_empty_command (cfg : ManagerConfig)
    (wr : Except String Watcher) (h : cfg.command = "") :
    (New cfg wr).1 = .error "command cannot be empty"
    ∧ (New cfg wr).2 = []
    ∧ (∀ c, SetupAction.startProcess c ∉ (New cfg wr).2)
    ∧ (∀ p, SetupAction.createFileWatcher p ∉ (New cfg wr).2) := by
  unfold New
  simp [h]

/-- Witness for C10: the concrete empty-command configuration. -/
theorem C10_new_empty_command_witness :
    (New ⟨"", [], ""⟩ (.ok .noop)).1 = .error "command cannot be empty" :=
  (C10_new_empty_command ⟨"", [], ""⟩ (.ok .noop) rfl).1

end FlushManager
